import Mathlib

/-!
# Verification of the lichess-bot-agent core

Shallow embedding of the Go sources of the lichess-bot-agent repository
(main program, lichess client, llm client) together with proofs of the
behavioural properties claimed by the specification.

The embedding models:
* the move-resolution protocol of checkAndMakeMove (main program),
* the terminal-status predicate isGameOver,
* the per-game worker loop of streamGameEvents (lichess_client.go),
* the registration step of streamGameEvents and the challenge-handling
  branch of streamLichessEvents.

External I/O (the LLM oracle getBestMoveFromLLM and the Lichess move
endpoint makeMove) is modelled as an environment supplying the result of
the n-th call; everything else is translated line by line from the source.
-/

namespace LichessBot

/-! ## String helpers mirroring the Go strings package operations used -/

/-- Whitespace test used by strings.Fields on the ASCII inputs involved. -/
def goIsSpace (c : Char) : Bool :=
  c == ' ' || c == '\t' || c == '\n' || c == '\r'

/-- Accumulator-passing worker for goFields. -/
def goFieldsAux : List Char → List Char → List String
  | [], acc => if acc = [] then [] else [⟨acc.reverse⟩]
  | c :: cs, acc =>
    if goIsSpace c then
      if acc = [] then goFieldsAux cs []
      else ⟨acc.reverse⟩ :: goFieldsAux cs []
    else goFieldsAux cs (c :: acc)

/-- Model of Go strings.Fields: split around runs of whitespace,
dropping empty tokens. -/
def goFields (s : String) : List String := goFieldsAux s.data []

/-- Leading-match test on character lists (Go strings.HasPrefix). -/
def listStartsWith : List Char → List Char → Bool
  | [], _ => true
  | _ :: _, [] => false
  | a :: as, b :: bs => a == b && listStartsWith as bs

/-- Substring occurrence test on character lists (Go strings.Contains). -/
def listContainsSub : List Char → List Char → Bool
  | [], pat => pat.isEmpty
  | h :: t, pat => listStartsWith pat (h :: t) || listContainsSub t pat

/-- Model of strings.Contains(strings.ToLower(s), pat) for a lowercase
pattern literal, as used for the illegality classification. -/
def goContainsLower (s : String) (pat : String) : Bool :=
  listContainsSub (s.data.map Char.toLower) pat.data

/-- Model of Go fmt %v formatting of a string slice, used only inside
the feedback text handed back to the oracle. -/
def goFmtList (l : List String) : String :=
  "[" ++ String.intercalate " " l ++ "]"

/-! ## Data model: the Game struct of the main program -/

/-- The Game struct of the main program.  doneClosed models whether the
doneCh channel has been closed. -/
structure Game where
  ID : String
  Color : String
  Moves : List String
  opponentGone : Bool
  doneClosed : Bool
  deriving Repr, DecidableEq

/-! ## Move-resolution protocol (checkAndMakeMove) -/

/-- Environment supplying the results of the external calls made during
one invocation of checkAndMakeMove: oracle n is the result of the
(n+1)-th getBestMoveFromLLM call of the turn (none models a Go error),
transport n the result of the (n+1)-th makeMove call (none models
success, some msg a Go error with text msg). -/
structure Env where
  oracle : Nat → Option String
  transport : Nat → Option String

/-- Observable external calls made by the protocol during one turn. -/
inductive Event where
  | oracleCall (moves : List String) (feedback : String)
  | moveCall (gameID : String) (move : String)
  deriving Repr, DecidableEq

/-- How one invocation of checkAndMakeMove ended. -/
inductive TurnOutcome where
  | skippedNoColor
  | skippedNotOurTurn
  | skippedOracleError
  | skippedEmptyMove
  | accepted
  | fatalAbort
  | exhausted
  deriving Repr, DecidableEq

/-- Side to move derived from the number of played moves
(lines 164-170 of the main program). -/
def sideToMove (moves : List String) : String :=
  if moves.length % 2 = 0 then "white" else "black"

/-- Classification of a makeMove error text as a retryable illegality
(the five substring tests at lines 220-224 of the main program). -/
def isRetryableError (msg : String) : Bool :=
  goContainsLower msg "illegal move" ||
  goContainsLower msg "invalid uci" ||
  goContainsLower msg "member move not found" ||
  goContainsLower msg "not possible to play" ||
  goContainsLower msg "cannot move to"

/-- Feedback text built for the oracle after a rejected move
(lines 227-232 of the main program). -/
def feedbackFor (nextMove : String) (moves : List String) : String :=
  if nextMove ≠ "" then
    "Your previous suggested move " ++ nextMove ++ " (for move list: " ++
      goFmtList moves ++ ") was invalid. Please provide a different valid UCI move."
  else
    "Please provide a valid UCI move (current move list: " ++ goFmtList moves ++ ")."

/-- The retry loop of checkAndMakeMove (lines 213-248): fuel is the
number of remaining loop iterations (3 at entry), tIdx and oIdx count
the makeMove and getBestMoveFromLLM calls already made this turn, and
nextMove is the current candidate move.  Returns the external calls made
from this point on and the outcome of the turn. -/
def retryLoop (env : Env) (gameID : String) (movesForLLM : List String) :
    Nat → Nat → Nat → String → List Event × TurnOutcome
  | 0, _, _, _ => ([], .exhausted)
  | fuel + 1, tIdx, oIdx, nextMove =>
    let submitEv := Event.moveCall gameID nextMove
    match env.transport tIdx with
    | none => ([submitEv], .accepted)
    | some msg =>
      if isRetryableError msg then
        let oEv := Event.oracleCall movesForLLM (feedbackFor nextMove movesForLLM)
        match env.oracle oIdx with
        | none => ([submitEv, oEv], .skippedOracleError)
        | some m =>
          if m = "" then ([submitEv, oEv], .skippedEmptyMove)
          else
            let r := retryLoop env gameID movesForLLM fuel (tIdx + 1) (oIdx + 1) m
            (submitEv :: oEv :: r.1, r.2)
      else ([submitEv], .fatalAbort)

/-- checkAndMakeMove (lines 162-250 of the main program).  Returns the
game (the function only ever reads it), the list of external calls made,
and the outcome of the turn. -/
def checkAndMakeMove (env : Env) (game : Game) : Game × List Event × TurnOutcome :=
  let numMoves := game.Moves.length
  let currentTurnColor := sideToMove game.Moves
  if game.Color = "" then (game, [], .skippedNoColor)
  else if game.Color ≠ currentTurnColor then (game, [], .skippedNotOurTurn)
  else
    let currentMovesForLLM := game.Moves
    if game.Color = "white" ∧ numMoves = 0 then
      if ("d2d4" : String) = "" then (game, [], .skippedEmptyMove)
      else
        let r := retryLoop env game.ID currentMovesForLLM 3 0 0 "d2d4"
        (game, r.1, r.2)
    else
      let oEv := Event.oracleCall currentMovesForLLM ""
      match env.oracle 0 with
      | none => (game, [oEv], .skippedOracleError)
      | some m =>
        if m = "" then (game, [oEv], .skippedEmptyMove)
        else
          let r := retryLoop env game.ID currentMovesForLLM 3 0 1 m
          (game, oEv :: r.1, r.2)

/-- Oracle-call counter over an event trace. -/
def isOracleEvent : Event → Bool
  | .oracleCall _ _ => true
  | .moveCall _ _ => false

/-- Submission counter companion of isOracleEvent. -/
def isMoveEvent : Event → Bool
  | .oracleCall _ _ => false
  | .moveCall _ _ => true

/-- Number of oracle queries recorded in a trace. -/
def countOracle (evs : List Event) : Nat := (evs.filter isOracleEvent).length

/-- Number of submission attempts recorded in a trace. -/
def countSubmits (evs : List Event) : Nat := (evs.filter isMoveEvent).length

/-- An environment in which every submission is rejected as illegal and
the oracle always answers with the same move. -/
def envAllRejected : Env :=
  { oracle := fun _ => some "e7e5", transport := fun _ => some "illegal move" }

/-- A game where it is black's turn after one played move. -/
def gameBlackTurn : Game :=
  { ID := "g1", Color := "black", Moves := ["e2e4"], opponentGone := false,
    doneClosed := false }

/-! ## Terminal statuses (isGameOver, lines 151-158 of the main program) -/

/-- isGameOver: the switch over terminal status strings. -/
def isGameOver (status : String) : Bool :=
  status == "mate" || status == "resign" || status == "stalemate" ||
  status == "timeout" || status == "draw" || status == "outoftime" ||
  status == "cheat" || status == "aborted" || status == "variantEnd" ||
  status == "noStart"

/-! ## Per-game worker (streamGameEvents, lichess_client.go lines 207-383) -/

/-- One decoded record of a per-game event stream.  gameFull carries the
moves string of its state object when that object is present (none
models a missing or non-object state field); player and botSide fields
are none when absent or of the wrong dynamic type.  malformed models a
JSON unmarshalling failure, noType a record without a string type
field. -/
inductive GameRecord where
  | blank
  | malformed
  | noType
  | gameFull (state : Option String) (whiteID blackID : Option String)
      (botSide : Option String)
  | gameState (movesStr : String) (status : String)
  | chatLine (username text : String)
  | opponentGoneRec (gone : Option Bool)
  | unknown (tag : String)
  deriving Repr, DecidableEq

/-- State of one worker goroutine: its game, whether its registry entry
is still present, and instrumentation counting close(doneCh) calls,
registry deletions and double-close panics. -/
structure WorkerState where
  game : Game
  registered : Bool
  closeCount : Nat
  deleteCount : Nat
  panicked : Bool
  deriving Repr, DecidableEq

/-- Effect of close(game.doneCh): marks the channel closed, counts the
close, and records a panic if the channel was already closed. -/
def closeDone (st : WorkerState) : WorkerState :=
  { st with game := { st.game with doneClosed := true },
            closeCount := st.closeCount + 1,
            panicked := st.panicked || st.game.doneClosed }

/-- Move replacement on a state record (lines 331-335 and 342-347 of
lichess_client.go): the history is overwritten from the carried moves
string only when that string is non-empty. -/
def applyMoves (movesStr : String) (g : Game) : Game :=
  if movesStr ≠ "" then { g with Moves := goFields movesStr } else g

/-- Colour determination of the gameFull branch (lines 307-328):
compare the two player ids against the bot id, then fall back to the
botSide field if the colour is still empty. -/
def determineColor (botID : String) (whiteID blackID botSide : Option String)
    (g : Game) : String :=
  let c := if whiteID = some botID then "white" else g.Color
  let c := if blackID = some botID then "black" else c
  if c = "" then
    match botSide with
    | some s => s
    | none => c
  else c

/-- The record-processing loop of streamGameEvents (lines 253-382).
k counts the checkAndMakeMove invocations of this worker so far and
envs k supplies the external-call results of the (k+1)-th invocation.
Returns the final worker state and the records left unread when the
loop returned. -/
def processLoop (botID : String) (envs : Nat → Env) :
    Nat → WorkerState → List GameRecord → WorkerState × List GameRecord
  | k, st, records =>
    if st.game.doneClosed then (st, records)
    else
      match records with
      | [] =>
        let g := st.game
        let gEof := if ¬g.opponentGone ∧ st.registered then
            { g with opponentGone := true } else g
        (closeDone { st with game := gEof }, [])
      | r :: rest =>
        match r with
        | .blank => processLoop botID envs k st rest
        | .malformed => processLoop botID envs k st rest
        | .noType => processLoop botID envs k st rest
        | .gameFull none _ _ _ => (closeDone st, rest)
        | .gameFull (some movesStr) whiteID blackID botSide =>
          let g := st.game
          let g := { g with Color := determineColor botID whiteID blackID botSide g }
          let g := applyMoves movesStr g
          let g := (checkAndMakeMove (envs k) g).1
          processLoop botID envs (k + 1) { st with game := g } rest
        | .gameState movesStr status =>
          let g := applyMoves movesStr st.game
          if isGameOver status then (closeDone { st with game := g }, rest)
          else
            let gNext := (checkAndMakeMove (envs k) g).1
            processLoop botID envs (k + 1) { st with game := gNext } rest
        | .chatLine _ _ => processLoop botID envs k st rest
        | .opponentGoneRec gone =>
          if gone = some true then
            processLoop botID envs k
              { st with game := { st.game with opponentGone := true } } rest
          else processLoop botID envs k st rest
        | .unknown _ => processLoop botID envs k st rest

/-- A worker run after registration: the processing loop followed by
the deferred registry deletion (lines 223-228 of lichess_client.go). -/
def runWorker (botID : String) (envs : Nat → Env) (st : WorkerState)
    (records : List GameRecord) : WorkerState × List GameRecord :=
  let r := processLoop botID envs 0 st records
  ({ r.1 with registered := false, deleteCount := r.1.deleteCount + 1 }, r.2)

/-- The registration prologue of streamGameEvents (lines 208-220): if
the game id is already in the registry the goroutine returns at once
(false = no worker proceeds); otherwise a fresh Game is registered and
the worker proceeds. -/
def streamGameEventsStart (reg : List (String × Game)) (gameID : String) :
    List (String × Game) × Bool :=
  match List.lookup gameID reg with
  | some _ => (reg, false)
  | none =>
    ((gameID, { ID := gameID, Color := "", Moves := [], opponentGone := false,
                doneClosed := false }) :: reg, true)

/-! ## Challenge handling (streamLichessEvents, lichess_client.go lines 97-139) -/

/-- Decoded challenger object: whether its bot field exists with a
boolean dynamic type (the code only checks existence, not the value),
and its id string (empty when absent, as in Go). -/
structure Challenger where
  botFieldIsBool : Bool
  id : String
  deriving Repr, DecidableEq

/-- Decoded challenge object of a challenge event; none components model
absent fields or wrong dynamic types. -/
structure ChallengeData where
  id : Option String
  status : Option String
  variantKey : Option String
  challenger : Option Challenger
  deriving Repr, DecidableEq

/-- Reaction of the dispatcher to one challenge event. -/
inductive ChallengeAction where
  | ignore
  | accept (id : String)
  | decline (id : String) (reason : String)
  deriving Repr, DecidableEq

/-- The challenge branch of streamLichessEvents (lines 98-127). -/
def handleChallenge (botID : String) (c : ChallengeData) : ChallengeAction :=
  match c.id, c.status with
  | some cid, some status =>
    if status = "created" then
      match c.variantKey with
      | none => .decline cid "standardOnly"
      | some key =>
        if key ≠ "standard" then .decline cid "standardOnly"
        else
          match c.challenger with
          | some ch =>
            if ch.botFieldIsBool = true ∨ ch.id = botID then .decline cid "noBot"
            else .accept cid
          | none => .accept cid
    else .ignore
  | _, _ => .ignore

/-- One decoded record of the global event stream. -/
inductive LichessRecord where
  | blank
  | malformed
  | noType
  | challenge (data : Option ChallengeData)
  | gameStart (gid : Option String)
  | unknown (tag : String)
  deriving Repr, DecidableEq

/-- Outward action of the dispatcher for one record. -/
inductive DispatchAction where
  | acceptCh (id : String)
  | declineCh (id : String) (reason : String)
  | spawn (gid : String)
  deriving Repr, DecidableEq

/-- Actions issued by the dispatcher for a single global-stream record
(the switch at lines 97-139 of lichess_client.go; malformed and
unrecognized records produce none). -/
def dispatchStep (botID : String) : LichessRecord → List DispatchAction
  | .blank => []
  | .malformed => []
  | .noType => []
  | .challenge none => []
  | .challenge (some c) =>
    match handleChallenge botID c with
    | .ignore => []
    | .accept cid => [.acceptCh cid]
    | .decline cid reason => [.declineCh cid reason]
  | .gameStart none => []
  | .gameStart (some gid) => [.spawn gid]
  | .unknown _ => []

/-- Actions issued by the dispatcher over a whole stream; the loop never
stops on a bad record. -/
def dispatchAll (botID : String) : List LichessRecord → List DispatchAction
  | [] => []
  | r :: rest => dispatchStep botID r ++ dispatchAll botID rest

/-! ## Concrete instances used by witnesses and counterexamples -/

/-- A game whose colour is not yet determined. -/
def gameNoColor : Game :=
  { ID := "g2", Color := "", Moves := [], opponentGone := false, doneClosed := false }

/-- Environment whose transport fails with a non-illegality error. -/
def envFatal : Env :=
  { oracle := fun _ => some "e7e5", transport := fun _ => some "boom" }

/-- Environment whose transport accepts every submission. -/
def envAccept : Env := { oracle := fun _ => none, transport := fun _ => none }

/-- A fresh game where the bot plays white and no move has been made. -/
def gameWhiteFresh : Game :=
  { ID := "g1", Color := "white", Moves := [], opponentGone := false,
    doneClosed := false }

/-- A fresh worker state for a just-registered white game. -/
def workerSt0 : WorkerState :=
  { game := gameWhiteFresh, registered := true, closeCount := 0, deleteCount := 0,
    panicked := false }

/-- A registry already holding the game g1. -/
def regOne : List (String × Game) := [("g1", gameWhiteFresh)]

/-- A concrete challenge from a human, non-bot challenger. -/
def chalHuman : ChallengeData :=
  { id := some "c1", status := some "created", variantKey := some "standard",
    challenger := some { botFieldIsBool := false, id := "alice" } }

/-! ## Shared lemmas -/

/-- checkAndMakeMove returns its game argument unchanged on every path:
the source only reads the Game fields under the lock and works on a
copy of the move list. -/
lemma cam_fst (env : Env) (game : Game) : (checkAndMakeMove env game).1 = game := by
  rcases ho : env.oracle 0 with _ | m <;>
    simp only [checkAndMakeMove, ho] <;> split_ifs <;> rfl

/-! ## Claim theorems -/

/-- Claim C10: the move-resolution protocol never mutates session state;
for every invocation of checkAndMakeMove the Game (its ID, Color,
MoveHistory, opponentGone flag and doneCh) is returned exactly as it was
passed in, on every path. -/
theorem checkAndMakeMove_frame (env : Env) (game : Game) :
    (checkAndMakeMove env game).1 = game :=
  cam_fst env game

/-- Claim C2: a submission attempt (oracle query or transport move call)
happens only when the game's colour is assigned and equals the
side-to-move derived from move-count parity; otherwise checkAndMakeMove
makes no external call at all and skips the turn. -/
theorem checkAndMakeMove_turn_guard (env : Env) (game : Game)
    (h : game.Color = "" ∨ game.Color ≠ sideToMove game.Moves) :
    (checkAndMakeMove env game).2.1 = [] ∧
    ((checkAndMakeMove env game).2.2 = TurnOutcome.skippedNoColor ∨
     (checkAndMakeMove env game).2.2 = TurnOutcome.skippedNotOurTurn) := by
  by_cases hc : game.Color = ""
  · simp [checkAndMakeMove, hc]
  · have hne : game.Color ≠ sideToMove game.Moves := h.resolve_left hc
    simp [checkAndMakeMove, hc, hne]

/-- Witness for claim C2 at a concrete unassigned-colour game. -/
theorem checkAndMakeMove_turn_guard_witness :
    (checkAndMakeMove envAllRejected gameNoColor).2.1 = [] ∧
    ((checkAndMakeMove envAllRejected gameNoColor).2.2 = TurnOutcome.skippedNoColor ∨
     (checkAndMakeMove envAllRejected gameNoColor).2.2 = TurnOutcome.skippedNotOurTurn) :=
  checkAndMakeMove_turn_guard envAllRejected gameNoColor (Or.inl rfl)

/-- Claim C5: a submission rejected with an error outside the illegality
vocabulary aborts the turn immediately: from that attempt on, the only
external call is the failed submission itself (zero further oracle
queries, zero further submissions, whatever retry budget remains) and
the protocol returns with a fatal abort. -/
theorem retryLoop_fatal_short_circuit (env : Env) (gameID : String)
    (movesForLLM : List String) (n tIdx oIdx : Nat) (mv msg : String)
    (h1 : env.transport tIdx = some msg) (h2 : isRetryableError msg = false) :
    retryLoop env gameID movesForLLM (n + 1) tIdx oIdx mv =
      ([Event.moveCall gameID mv], TurnOutcome.fatalAbort) := by
  unfold retryLoop
  rw [h1]
  simp [h2]

/-- Witness for claim C5 at a concrete fatal transport error. -/
theorem retryLoop_fatal_short_circuit_witness :
    retryLoop envFatal "g1" ["e2e4"] 3 0 1 "e7e5" =
      ([Event.moveCall "g1" "e7e5"], TurnOutcome.fatalAbort) :=
  retryLoop_fatal_short_circuit envFatal "g1" ["e2e4"] 2 0 1 "e7e5" "boom" rfl (by decide)

/-- Claim C9: with an empty move history and the bot playing white,
checkAndMakeMove submits the fixed opening move d2d4 before any oracle
query (the first external call is that submission), and when the
transport accepts it the whole turn consists of that single call. -/
theorem openingMove_without_oracle (env : Env) (game : Game)
    (hw : game.Color = "white") (hm : game.Moves = []) :
    ((checkAndMakeMove env game).2.1).head? = some (Event.moveCall game.ID "d2d4") ∧
    (env.transport 0 = none →
      (checkAndMakeMove env game).2.1 = [Event.moveCall game.ID "d2d4"] ∧
      (checkAndMakeMove env game).2.2 = TurnOutcome.accepted) := by
  constructor
  · rcases h0 : env.transport 0 with _ | msg
    · simp [checkAndMakeMove, hw, hm, sideToMove, retryLoop, h0]
    · by_cases hr : isRetryableError msg
      · rcases ho : env.oracle 0 with _ | m
        · simp [checkAndMakeMove, hw, hm, sideToMove, retryLoop, h0, hr, ho]
        · by_cases hemp : m = "" <;>
            simp [checkAndMakeMove, hw, hm, sideToMove, retryLoop, h0, hr, ho, hemp]
      · simp [checkAndMakeMove, hw, hm, sideToMove, retryLoop, h0, hr]
  · intro h0
    simp [checkAndMakeMove, hw, hm, sideToMove, retryLoop, h0]

/-- With every submission rejected as retryable and an always-answering
oracle, the retry loop makes exactly fuel submissions and fuel oracle
queries before running out of budget: it re-queries the oracle once
after each rejection, including the last one. -/
lemma retryLoop_all_retryable (env : Env) (gameID : String) (movesForLLM : List String) :
    ∀ fuel tIdx oIdx mv,
      (∀ i, i < fuel → ∃ msg, env.transport (tIdx + i) = some msg ∧
        isRetryableError msg = true) →
      (∀ i, ∃ m, env.oracle i = some m ∧ m ≠ "") →
      countSubmits (retryLoop env gameID movesForLLM fuel tIdx oIdx mv).1 = fuel ∧
      countOracle (retryLoop env gameID movesForLLM fuel tIdx oIdx mv).1 = fuel ∧
      (retryLoop env gameID movesForLLM fuel tIdx oIdx mv).2 = TurnOutcome.exhausted := by
  intro fuel
  induction fuel with
  | zero =>
    intro tIdx oIdx mv _ _
    simp [retryLoop, countSubmits, countOracle]
  | succ n ih =>
    intro tIdx oIdx mv hT hO
    obtain ⟨msg, hmsg, hret⟩ := hT 0 (Nat.succ_pos n)
    rw [Nat.add_zero] at hmsg
    obtain ⟨m, hm, hne⟩ := hO oIdx
    have hTnext : ∀ i, i < n → ∃ msg2, env.transport (tIdx + 1 + i) = some msg2 ∧
        isRetryableError msg2 = true := by
      intro i hi
      have := hT (i + 1) (by omega)
      rwa [show tIdx + (i + 1) = tIdx + 1 + i by omega] at this
    obtain ⟨hs, ho, hout⟩ := ih (tIdx + 1) (oIdx + 1) m hTnext hO
    have hs2 : (List.filter isMoveEvent
        (retryLoop env gameID movesForLLM n (tIdx + 1) (oIdx + 1) m).1).length = n := hs
    have ho2 : (List.filter isOracleEvent
        (retryLoop env gameID movesForLLM n (tIdx + 1) (oIdx + 1) m).1).length = n := ho
    simp only [retryLoop, hmsg, hret, if_true, hm, hne, if_neg, ite_false]
    refine ⟨?_, ?_, hout⟩
    · simp [countSubmits, List.filter_cons, isMoveEvent, isOracleEvent, hs2]
    · simp [countOracle, List.filter_cons, isMoveEvent, isOracleEvent, ho2]

/-- Claim C1 (amended): when a turn sees only retryable rejections, the
protocol makes exactly 3 submission attempts and no 4th submission, but
it queries the oracle once more after the third rejection, so the turn
makes 4 oracle queries in the general case and 3 when the fixed opening
move supplied the first candidate. -/
theorem retryBound_three_submissions (env : Env) (game : Game)
    (hc : game.Color ≠ "")
    (ht : game.Color = sideToMove game.Moves)
    (hT : ∀ i, i < 3 → ∃ msg, env.transport i = some msg ∧ isRetryableError msg = true)
    (hO : ∀ i, ∃ m, env.oracle i = some m ∧ m ≠ "") :
    countSubmits (checkAndMakeMove env game).2.1 = 3 ∧
    (checkAndMakeMove env game).2.2 = TurnOutcome.exhausted ∧
    countOracle (checkAndMakeMove env game).2.1 =
      (if game.Color = "white" ∧ game.Moves.length = 0 then 3 else 4) := by
  have hT0 : ∀ i, i < 3 → ∃ msg, env.transport (0 + i) = some msg ∧
      isRetryableError msg = true := by
    intro i hi
    rw [Nat.zero_add]
    exact hT i hi
  by_cases h3 : game.Color = "white" ∧ game.Moves.length = 0
  · obtain ⟨hs, ho, hout⟩ :=
      retryLoop_all_retryable env game.ID game.Moves 3 0 0 "d2d4" hT0 hO
    have hgoal : checkAndMakeMove env game =
        (game, (retryLoop env game.ID game.Moves 3 0 0 "d2d4").1,
          (retryLoop env game.ID game.Moves 3 0 0 "d2d4").2) := by
      simp only [checkAndMakeMove]
      rw [if_neg hc, if_neg (not_not_intro ht), if_pos h3,
        if_neg (show ¬("d2d4" : String) = "" by decide)]
    rw [hgoal, if_pos h3]
    exact ⟨hs, hout, ho⟩
  · obtain ⟨m0, hm0, hne0⟩ := hO 0
    obtain ⟨hs, ho, hout⟩ :=
      retryLoop_all_retryable env game.ID game.Moves 3 0 1 m0 hT0 hO
    have hs2 : (List.filter isMoveEvent
        (retryLoop env game.ID game.Moves 3 0 1 m0).1).length = 3 := hs
    have ho2 : (List.filter isOracleEvent
        (retryLoop env game.ID game.Moves 3 0 1 m0).1).length = 3 := ho
    have hgoal : checkAndMakeMove env game =
        (game, Event.oracleCall game.Moves "" ::
          (retryLoop env game.ID game.Moves 3 0 1 m0).1,
          (retryLoop env game.ID game.Moves 3 0 1 m0).2) := by
      simp only [checkAndMakeMove]
      rw [if_neg hc, if_neg (not_not_intro ht), if_neg h3, hm0]
      dsimp only
      rw [if_neg hne0]
    rw [hgoal, if_neg h3]
    refine ⟨?_, hout, ?_⟩
    · simp [countSubmits, List.filter_cons, isMoveEvent, hs2]
    · simp [countOracle, List.filter_cons, isOracleEvent, ho2]

/-- Witness for the amended claim C1 at a concrete black turn where
every submission is rejected as an illegal move. -/
theorem retryBound_three_submissions_witness :
    countSubmits (checkAndMakeMove envAllRejected gameBlackTurn).2.1 = 3 ∧
    (checkAndMakeMove envAllRejected gameBlackTurn).2.2 = TurnOutcome.exhausted ∧
    countOracle (checkAndMakeMove envAllRejected gameBlackTurn).2.1 =
      (if gameBlackTurn.Color = "white" ∧ gameBlackTurn.Moves.length = 0 then 3 else 4) :=
  retryBound_three_submissions envAllRejected gameBlackTurn (by decide) (by decide)
    (fun i _ => ⟨"illegal move", rfl, by decide⟩)
    (fun i => ⟨"e7e5", rfl, by decide⟩)

/-- Counterexample to claim C1 as stated: on a black turn with three
consecutive retryable rejections the protocol does make exactly 3
submission attempts, but it performs a 4th oracle query (one after each
rejection, on top of the initial one) before giving up. -/
theorem retryBound_counterexample :
    countSubmits (checkAndMakeMove envAllRejected gameBlackTurn).2.1 = 3 ∧
    countOracle (checkAndMakeMove envAllRejected gameBlackTurn).2.1 = 4 ∧
    (checkAndMakeMove envAllRejected gameBlackTurn).2.2 = TurnOutcome.exhausted := by
  decide

/-- Witness for claim C9 at a concrete fresh white game with an
accepting transport. -/
theorem openingMove_without_oracle_witness :
    (checkAndMakeMove envAccept gameWhiteFresh).2.1 =
      [Event.moveCall "g1" "d2d4"] ∧
    (checkAndMakeMove envAccept gameWhiteFresh).2.2 = TurnOutcome.accepted :=
  (openingMove_without_oracle envAccept gameWhiteFresh rfl rfl).2 rfl

/-- applyMoves only touches the Moves field. -/
lemma applyMoves_doneClosed (movesStr : String) (g : Game) :
    (applyMoves movesStr g).doneClosed = g.doneClosed := by
  unfold applyMoves
  split <;> rfl

/-- The worker loop never records a double-close panic: every close site
is reached only with the channel still open and is immediately followed
by a return. -/
lemma processLoop_panicked (botID : String) (envs : Nat → Env) :
    ∀ records k st, (processLoop botID envs k st records).1.panicked = st.panicked := by
  intro records
  induction records with
  | nil =>
    intro k st
    rw [processLoop]
    cases hd : st.game.doneClosed with
    | true => simp [hd]
    | false =>
      simp only [hd, Bool.false_eq_true, if_false]
      split <;> simp [closeDone, hd]
  | cons r rest ih =>
    intro k st
    rw [processLoop.eq_def]
    cases hd : st.game.doneClosed with
    | true => simp [hd]
    | false =>
      simp only [hd, Bool.false_eq_true, if_false]
      cases r with
      | blank => exact ih k st
      | malformed => exact ih k st
      | noType => exact ih k st
      | gameFull state whiteID blackID botSide =>
        cases state with
        | none => simp [closeDone, hd]
        | some movesStr => exact ih (k + 1) _
      | gameState movesStr status =>
        by_cases hg : isGameOver status = true
        · simp [hg, closeDone, applyMoves_doneClosed, hd]
        · simp only [hg, Bool.false_eq_true, if_false]
          exact ih (k + 1) _
      | chatLine u t => exact ih k st
      | opponentGoneRec gone =>
        by_cases hgone : gone = some true
        · simp only [hgone, if_pos]
          exact ih k _
        · simp only [hgone, if_neg, ite_false]
          exact ih k st
      | unknown tag => exact ih k st

/-- One run of the worker loop performs at most one close of the done
channel. -/
lemma processLoop_closeCount (botID : String) (envs : Nat → Env) :
    ∀ records k st,
      (processLoop botID envs k st records).1.closeCount ≤ st.closeCount + 1 := by
  intro records
  induction records with
  | nil =>
    intro k st
    rw [processLoop]
    cases hd : st.game.doneClosed with
    | true => simp [hd]
    | false =>
      simp only [hd, Bool.false_eq_true, if_false]
      split <;> simp [closeDone]
  | cons r rest ih =>
    intro k st
    rw [processLoop.eq_def]
    cases hd : st.game.doneClosed with
    | true => simp [hd]
    | false =>
      simp only [hd, Bool.false_eq_true, if_false]
      cases r with
      | blank => exact ih k st
      | malformed => exact ih k st
      | noType => exact ih k st
      | gameFull state whiteID blackID botSide =>
        cases state with
        | none => simp [closeDone]
        | some movesStr => exact ih (k + 1) _
      | gameState movesStr status =>
        by_cases hg : isGameOver status = true
        · simp [hg, closeDone]
        · simp only [hg, Bool.false_eq_true, if_false]
          exact ih (k + 1) _
      | chatLine u t => exact ih k st
      | opponentGoneRec gone =>
        by_cases hgone : gone = some true
        · simp only [hgone, if_pos]
          exact ih k _
        · simp only [hgone, if_neg, ite_false]
          exact ih k st
      | unknown tag => exact ih k st

/-- Claim C3: the terminal statuses are exactly the closed ten-element
set tested by isGameOver; no worker execution ever closes the done
channel twice (no double-close panic, and at most one close per run);
and a state-update carrying a terminal status makes the worker close
the channel exactly once, delete its registry entry exactly once, and
read no further records. -/
theorem terminalStatus_closes_exactly_once :
    (∀ s, isGameOver s = true ↔
      s ∈ (["mate", "resign", "stalemate", "timeout", "draw", "outoftime",
            "cheat", "aborted", "variantEnd", "noStart"] : List String)) ∧
    (∀ botID envs st records,
      (runWorker botID envs st records).1.panicked = st.panicked ∧
      (runWorker botID envs st records).1.closeCount ≤ st.closeCount + 1) ∧
    (∀ botID envs movesStr status rest st,
      isGameOver status = true → st.game.doneClosed = false →
      st.closeCount = 0 → st.deleteCount = 0 →
      (runWorker botID envs st
        (GameRecord.gameState movesStr status :: rest)).1.closeCount = 1 ∧
      (runWorker botID envs st
        (GameRecord.gameState movesStr status :: rest)).1.deleteCount = 1 ∧
      (runWorker botID envs st
        (GameRecord.gameState movesStr status :: rest)).1.registered = false ∧
      (runWorker botID envs st
        (GameRecord.gameState movesStr status :: rest)).1.game.doneClosed = true ∧
      (runWorker botID envs st
        (GameRecord.gameState movesStr status :: rest)).2 = rest) := by
  refine ⟨?_, ?_, ?_⟩
  · intro s
    simp [isGameOver]
    tauto
  · intro botID envs st records
    constructor
    · simp only [runWorker]
      exact processLoop_panicked botID envs records 0 st
    · simp only [runWorker]
      exact processLoop_closeCount botID envs records 0 st
  · intro botID envs movesStr status rest st h1 h2 h3 h4
    rw [runWorker, processLoop]
    simp [h2, h1, closeDone, h3, h4]

/-- Witness for claim C3: a concrete worker that receives a mate
state-update closes once, deletes its entry once and stops reading. -/
theorem terminalStatus_closes_exactly_once_witness :
    (runWorker "bot" (fun _ => envAccept) workerSt0
      [GameRecord.gameState "e2e4 e7e5" "mate"]).1.closeCount = 1 ∧
    (runWorker "bot" (fun _ => envAccept) workerSt0
      [GameRecord.gameState "e2e4 e7e5" "mate"]).1.deleteCount = 1 ∧
    (runWorker "bot" (fun _ => envAccept) workerSt0
      [GameRecord.gameState "e2e4 e7e5" "mate"]).1.registered = false ∧
    (runWorker "bot" (fun _ => envAccept) workerSt0
      [GameRecord.gameState "e2e4 e7e5" "mate"]).1.game.doneClosed = true ∧
    (runWorker "bot" (fun _ => envAccept) workerSt0
      [GameRecord.gameState "e2e4 e7e5" "mate"]).2 = [] :=
  terminalStatus_closes_exactly_once.2.2 "bot" (fun _ => envAccept)
    "e2e4 e7e5" "mate" [] workerSt0 (by decide) rfl rfl rfl

/-- Claim C6 (amended): unparsable records, records without a type tag
and records with an unrecognized tag are ignored on both streams: the
dispatcher issues no action for them and keeps processing the rest of
the stream, and the worker loop leaves its whole state untouched and
moves on to the next record.  Exception (the last conjunct): a gameFull
record on a per-session stream whose state object is missing closes the
done channel and ends the session, leaving the rest of the stream
unread. -/
theorem malformed_records_ignored (botID tag : String) (rest : List LichessRecord)
    (envs : Nat → Env) (k : Nat) (grest : List GameRecord) (st : WorkerState)
    (whiteID blackID botSide : Option String)
    (h : st.game.doneClosed = false) :
    dispatchStep botID LichessRecord.malformed = [] ∧
    dispatchStep botID LichessRecord.noType = [] ∧
    dispatchStep botID (LichessRecord.unknown tag) = [] ∧
    dispatchAll botID (LichessRecord.malformed :: rest) = dispatchAll botID rest ∧
    dispatchAll botID (LichessRecord.noType :: rest) = dispatchAll botID rest ∧
    dispatchAll botID (LichessRecord.unknown tag :: rest) = dispatchAll botID rest ∧
    processLoop botID envs k st (GameRecord.malformed :: grest) =
      processLoop botID envs k st grest ∧
    processLoop botID envs k st (GameRecord.noType :: grest) =
      processLoop botID envs k st grest ∧
    processLoop botID envs k st (GameRecord.unknown tag :: grest) =
      processLoop botID envs k st grest ∧
    processLoop botID envs k st
        (GameRecord.gameFull none whiteID blackID botSide :: grest) =
      (closeDone st, grest) := by
  refine ⟨rfl, rfl, rfl, ?_, ?_, ?_, ?_, ?_, ?_, ?_⟩
  · simp [dispatchAll, dispatchStep]
  · simp [dispatchAll, dispatchStep]
  · simp [dispatchAll, dispatchStep]
  · conv_lhs => rw [processLoop]
    simp [h]
  · conv_lhs => rw [processLoop]
    simp [h]
  · conv_lhs => rw [processLoop]
    simp [h]
  · rw [processLoop.eq_def]
    simp [h]

/-- Witness for claim C6: a concrete malformed record is skipped by a
concrete worker without any effect. -/
theorem malformed_records_ignored_witness :
    processLoop "bot" (fun _ => envAccept) 0 workerSt0 [GameRecord.malformed] =
      processLoop "bot" (fun _ => envAccept) 0 workerSt0 [] :=
  (malformed_records_ignored "bot" "ping" [] (fun _ => envAccept) 0 []
    workerSt0 none none none rfl).2.2.2.2.2.2.1

/-- Counterexample to claim C6 as stated: a gameFull record whose state
object is missing is a malformed per-session record, yet the worker
does not continue with the next record: it closes the done channel
(terminating the session) and leaves the subsequent record unread. -/
theorem malformed_records_ignored_counterexample :
    (processLoop "bot" (fun _ => envAccept) 0 workerSt0
      [GameRecord.gameFull none none none none, GameRecord.blank]).1.game.doneClosed
        = true ∧
    (processLoop "bot" (fun _ => envAccept) 0 workerSt0
      [GameRecord.gameFull none none none none, GameRecord.blank]).1.closeCount = 1 ∧
    (processLoop "bot" (fun _ => envAccept) 0 workerSt0
      [GameRecord.gameFull none none none none, GameRecord.blank]).2 =
        [GameRecord.blank] := by
  decide

/-- Claim C7 (amended): a state snapshot wholesale-replaces the move
history with the parsed carried move list whenever the carried moves
string is non-empty (the new history does not depend on the old one);
when the carried moves string is empty the history is left unchanged
rather than replaced by the empty list. -/
theorem moveHistory_replacement (movesStr : String) (g : Game) :
    (movesStr ≠ "" → applyMoves movesStr g = { g with Moves := goFields movesStr }) ∧
    (movesStr = "" → applyMoves movesStr g = g) := by
  constructor <;> intro h <;> simp [applyMoves, h]

/-- Witness for the amended claim C7 at a concrete snapshot. -/
theorem moveHistory_replacement_witness :
    applyMoves "e2e4 e7e5" gameBlackTurn =
      { gameBlackTurn with Moves := ["e2e4", "e7e5"] } := by
  rw [(moveHistory_replacement "e2e4 e7e5" gameBlackTurn).1 (by decide)]
  decide

/-- Counterexample to claim C7 as stated: a state snapshot whose carried
move list is empty does not replace the history; a game holding one
move keeps it although the event carried the empty list. -/
theorem moveHistory_replacement_counterexample :
    goFields "" = [] ∧
    (applyMoves "" gameBlackTurn).Moves = ["e2e4"] ∧
    (applyMoves "" gameBlackTurn).Moves ≠ goFields "" := by
  decide

/-- Claim C8: a session-start for an identifier already present in the
registry is a no-op: the registry is returned unchanged and no worker
proceeds. -/
theorem sessionStart_idempotent (reg : List (String × Game)) (gameID : String)
    (g : Game) (h : List.lookup gameID reg = some g) :
    streamGameEventsStart reg gameID = (reg, false) := by
  simp [streamGameEventsStart, h]

/-- Witness for claim C8 at a concrete registry. -/
theorem sessionStart_idempotent_witness :
    streamGameEventsStart regOne "g1" = (regOne, false) :=
  sessionStart_idempotent regOne "g1" gameWhiteFresh (by decide)

/-- Claim C4: for a well-formed challenge-created event, the dispatcher
accepts iff the variant is standard and any carried challenger neither
has a bot field nor is the bot itself; every non-accepted such event is
declined with reason standardOnly (non-standard or missing variant) or
noBot (bot-marked or self challenger). -/
theorem challenge_policy (botID : String) (c : ChallengeData) (cid : String)
    (hid : c.id = some cid) (hst : c.status = some "created") :
    (handleChallenge botID c = ChallengeAction.accept cid ↔
      (c.variantKey = some "standard" ∧
        ∀ ch, c.challenger = some ch →
          (ch.botFieldIsBool = false ∧ ch.id ≠ botID))) ∧
    (c.variantKey ≠ some "standard" →
      handleChallenge botID c = ChallengeAction.decline cid "standardOnly") ∧
    (∀ ch, c.variantKey = some "standard" → c.challenger = some ch →
      (ch.botFieldIsBool = true ∨ ch.id = botID) →
      handleChallenge botID c = ChallengeAction.decline cid "noBot") := by
  obtain ⟨ci, cs, vk, chl⟩ := c
  obtain rfl : ci = some cid := hid
  obtain rfl : cs = some "created" := hst
  rcases vk with _ | key
  · refine ⟨?_, fun _ => ?_, ?_⟩
    · simp [handleChallenge]
    · simp [handleChallenge]
    · intro ch hvk
      exact absurd hvk (by simp)
  · by_cases hkey : key = "standard"
    · subst hkey
      rcases chl with _ | ch
      · refine ⟨?_, fun hne => absurd rfl hne, ?_⟩
        · simp [handleChallenge]
        · intro ch _ hch
          exact absurd hch (by simp)
      · by_cases hb : ch.botFieldIsBool = true ∨ ch.id = botID
        · have hval : handleChallenge botID
              ⟨some cid, some "created", some "standard", some ch⟩ =
              ChallengeAction.decline cid "noBot" := by
            simp [handleChallenge, hb]
          refine ⟨?_, fun hne => absurd rfl hne, fun ch2 _ _ _ => hval⟩
          rw [hval]
          constructor
          · intro habs
            exact absurd habs (by simp)
          · rintro ⟨-, hall⟩
            obtain ⟨hf, hni⟩ := hall ch rfl
            rcases hb with hb | hb
            · rw [hf] at hb
              exact absurd hb (by simp)
            · exact absurd hb hni
        · have hb2 : ¬ch.botFieldIsBool = true ∧ ¬ch.id = botID := not_or.mp hb
          have hval : handleChallenge botID
              ⟨some cid, some "created", some "standard", some ch⟩ =
              ChallengeAction.accept cid := by
            simp [handleChallenge, hb]
          refine ⟨?_, fun hne => absurd rfl hne, fun ch2 _ hch2 hcontra => ?_⟩
          · rw [hval]
            constructor
            · intro _
              refine ⟨rfl, fun ch2 hch2 => ?_⟩
              obtain rfl : ch = ch2 := by injection hch2
              exact ⟨Bool.not_eq_true _ ▸ hb2.1, hb2.2⟩
            · intro _
              rfl
          · obtain rfl : ch = ch2 := by injection hch2
            exact absurd hcontra hb
    · have hval : handleChallenge botID
          ⟨some cid, some "created", some key, chl⟩ =
          ChallengeAction.decline cid "standardOnly" := by
        simp [handleChallenge, hkey]
      refine ⟨?_, fun _ => hval, ?_⟩
      · rw [hval]
        constructor
        · intro habs
          exact absurd habs (by simp)
        · rintro ⟨hvk, -⟩
          obtain rfl : key = "standard" := by injection hvk
          exact absurd rfl hkey
      · intro ch hvk
        obtain rfl : key = "standard" := by injection hvk
        exact absurd rfl hkey

/-- Witness for claim C4: the concrete standard human challenge is
accepted. -/
theorem challenge_policy_witness :
    handleChallenge "mybot" chalHuman = ChallengeAction.accept "c1" :=
  (challenge_policy "mybot" chalHuman "c1" rfl rfl).1.mpr
    ⟨rfl, fun ch hch => by
      obtain rfl : ({ botFieldIsBool := false, id := "alice" } : Challenger) = ch := by
        injection hch
      exact ⟨rfl, by decide⟩⟩

end LichessBot
